import Mathlib

/-
Verification of the consent-gated event-tracking pipeline of the
data-snack repository: the TrackingEvent entity and its transformations,
the client SDK (consent gating, capture queue, flush/retry), the server
side tracking service and forwarder, and the GDPR anonymization routine.

JavaScript strings are modelled as lists of characters; JavaScript
object spreads over optional fields are modelled with Option; the
falsy-or idiom (a or b, where the empty string counts as absent) is
modelled by jsOrStr and jsOrOpt.  Timestamps and generated ids, which
the code obtains from the ambient runtime, are explicit parameters.
-/

namespace DataSnack

/-- A JavaScript string, as a list of characters. -/
abbrev Str := List Char

/-- The event type literal page_view. -/
def pageViewT : Str := ['p', 'a', 'g', 'e', '_', 'v', 'i', 'e', 'w']

/-- The event type literal consent_change. -/
def consentChangeT : Str := ['c', 'o', 'n', 's', 'e', 'n', 't', '_', 'c', 'h', 'a', 'n', 'g', 'e']

/-- The event type literal snack_start. -/
def snackStartT : Str := ['s', 'n', 'a', 'c', 'k', '_', 's', 't', 'a', 'r', 't']

/-- The event type literal snack_complete. -/
def snackCompleteT : Str := ['s', 'n', 'a', 'c', 'k', '_', 'c', 'o', 'm', 'p', 'l', 'e', 't', 'e']

/-- The event type literal click. -/
def clickT : Str := ['c', 'l', 'i', 'c', 'k']

/-- The event type literal scroll. -/
def scrollT : Str := ['s', 'c', 'r', 'o', 'l', 'l']

/-- The event type literal share. -/
def shareT : Str := ['s', 'h', 'a', 'r', 'e']

/-- The event type literal click_dna. -/
def clickDnaT : Str := ['c', 'l', 'i', 'c', 'k', '_', 'd', 'n', 'a']

/-- The event type literal scroll_behavior. -/
def scrollBehaviorT : Str := ['s', 'c', 'r', 'o', 'l', 'l', '_', 'b', 'e', 'h', 'a', 'v', 'i', 'o', 'r']

/-- The event type literal privacy_leak. -/
def privacyLeakT : Str := ['p', 'r', 'i', 'v', 'a', 'c', 'y', '_', 'l', 'e', 'a', 'k']

/-- The property key email. -/
def emailK : Str := ['e', 'm', 'a', 'i', 'l']

/-- The property key name. -/
def nameK : Str := ['n', 'a', 'm', 'e']

/-- The property key phone. -/
def phoneK : Str := ['p', 'h', 'o', 'n', 'e']

/-- The literal Unknown (user-agent fallback in TrackingEvent.create). -/
def unknownCap : Str := ['U', 'n', 'k', 'n', 'o', 'w', 'n']

/-- The literal unknown (client-ip fallback on the server). -/
def unknownLow : Str := ['u', 'n', 'k', 'n', 'o', 'w', 'n']

/-- The literal anonymized- (placeholder marker in anonymize_user_data). -/
def anonymizedMark : Str := ['a', 'n', 'o', 'n', 'y', 'm', 'i', 'z', 'e', 'd', '-']

/-- The key personal_info removed from session data by anonymize_user_data. -/
def personalInfoK : Str := ['p', 'e', 'r', 's', 'o', 'n', 'a', 'l', '_', 'i', 'n', 'f', 'o']

/-- JavaScript a or b for a an optional string and b a string:
the empty string is falsy, so it falls through to b. -/
def jsOrStr (a : Option Str) (b : Str) : Str :=
  match a with
  | some s => if s = [] then b else s
  | none => b

/-- JavaScript a or b where both sides may be absent. -/
def jsOrOpt (a : Option Str) (b : Option Str) : Option Str :=
  match a with
  | some s => if s = [] then b else some s
  | none => b

/-- JavaScript object-spread on one optional field: a later key, when
present, overrides an earlier one. -/
def jsSpreadOpt {α : Type} (base over : Option α) : Option α :=
  match over with
  | some v => some v
  | none => base

/-- JavaScript s.split(c) for a one-character separator: splits into the
(possibly empty) pieces between occurrences of c. -/
def splitChar (c : Char) : Str → List Str
  | [] => [[]]
  | x :: xs =>
    match splitChar c xs with
    | [] => [[]]
    | y :: ys => if x = c then [] :: y :: ys else (x :: y) :: ys

/-- JavaScript s.split(c)[0]: the first piece. -/
def firstTok (c : Char) (s : Str) : Str :=
  (splitChar c s).headD []

/-- The client consent state: four fixed categories
(DataSnackSDK.ConsentState). -/
structure Consent where
  necessary : Bool
  analytics : Bool
  marketing : Bool
  personalization : Bool
deriving DecidableEq, Repr

/-- The consent state a DataSnackSDK instance starts with: only
necessary is granted. -/
def initialConsent : Consent :=
  { necessary := true, analytics := false, marketing := false, personalization := false }

/-- The event types that are always allowed (necessary). -/
def necessaryTypes : List Str := [pageViewT, consentChangeT]

/-- The event types gated on the analytics category. -/
def analyticsTypes : List Str := [snackStartT, snackCompleteT, clickT, scrollT]

/-- The event types gated on the marketing category. -/
def marketingTypes : List Str := [shareT]

/-- The event types gated on the personalization category. -/
def personalizationTypes : List Str := [clickDnaT, scrollBehaviorT, privacyLeakT]

/-- DataSnackSDK.canTrack: the consent gating table.  Events of an
unlisted type default to requiring analytics consent. -/
def canTrack (t : Str) (c : Consent) : Bool :=
  if t ∈ necessaryTypes then true
  else if t ∈ analyticsTypes then c.analytics
  else if t ∈ marketingTypes then c.marketing
  else if t ∈ personalizationTypes then c.personalization
  else c.analytics

/-- The structured event context (EventContext in the core package).
Every field is optional. -/
structure EventContext where
  url : Option Str
  referrer : Option Str
  userAgent : Option Str
  screenResolution : Option Str
  viewport : Option Str
  timezone : Option Str
  language : Option Str
  platform : Option Str
  snackId : Option Str
  snackVersion : Option Str
  experimentId : Option Str
  experimentVariant : Option Str
deriving DecidableEq, Repr

/-- The context with every field absent. -/
def emptyContext : EventContext :=
  { url := none, referrer := none, userAgent := none, screenResolution := none,
    viewport := none, timezone := none, language := none, platform := none,
    snackId := none, snackVersion := none, experimentId := none, experimentVariant := none }

/-- The immutable tracking-event entity (TrackingEvent in the core
package).  Property values are opaque to every operation verified here,
so properties are an association list of string keys to string values. -/
structure TrackingEvent where
  id : Str
  userId : Option Str
  sessionId : Str
  type : Str
  name : Str
  properties : List (Str × Str)
  context : EventContext
  timestamp : Nat
  serverTimestamp : Option Nat
deriving DecidableEq, Repr

/-- The ambient runtime TrackingEvent.create reads fallback context
from: navigator.userAgent, the Intl timezone and navigator.language,
each absent outside a browser. -/
structure Ambient where
  navigatorUserAgent : Option Str
  intlTimezone : Option Str
  navigatorLanguage : Option Str
deriving DecidableEq, Repr

namespace TrackingEvent

/-- TrackingEvent.create: builds a new event with a fresh id, no user,
an empty session id, and a context whose userAgent, timezone and
language fall back to the ambient runtime (userAgent falls back to the
literal Unknown when no runtime is available).  The generated id and
the capture time are explicit parameters. -/
def create (type name : Str) (props : List (Str × Str)) (ctx : EventContext)
    (amb : Ambient) (newId : Str) (now : Nat) : TrackingEvent :=
  { id := newId
    userId := none
    sessionId := []
    type := type
    name := name
    properties := props
    context :=
      { url := ctx.url
        referrer := ctx.referrer
        userAgent := some (jsOrStr ctx.userAgent (amb.navigatorUserAgent.getD unknownCap))
        screenResolution := ctx.screenResolution
        viewport := ctx.viewport
        timezone := jsOrOpt ctx.timezone amb.intlTimezone
        language := jsOrOpt ctx.language amb.navigatorLanguage
        platform := ctx.platform
        snackId := ctx.snackId
        snackVersion := ctx.snackVersion
        experimentId := ctx.experimentId
        experimentVariant := ctx.experimentVariant }
    timestamp := now
    serverTimestamp := none }

/-- TrackingEvent.withUser: a new event with the user id set; the
source constructs the new event field by field. -/
def withUser (e : TrackingEvent) (userId : Str) : TrackingEvent :=
  ⟨e.id, some userId, e.sessionId, e.type, e.name, e.properties, e.context,
    e.timestamp, e.serverTimestamp⟩

/-- TrackingEvent.withSession: a new event with the session id set. -/
def withSession (e : TrackingEvent) (sessionId : Str) : TrackingEvent :=
  ⟨e.id, e.userId, sessionId, e.type, e.name, e.properties, e.context,
    e.timestamp, e.serverTimestamp⟩

/-- TrackingEvent.withServerTimestamp: a new event stamped with the
server receive time (a parameter standing for the current clock). -/
def withServerTimestamp (e : TrackingEvent) (now : Nat) : TrackingEvent :=
  ⟨e.id, e.userId, e.sessionId, e.type, e.name, e.properties, e.context,
    e.timestamp, some now⟩

/-- Deleting one key from a properties object. -/
def delKey (k : Str) (props : List (Str × Str)) : List (Str × Str) :=
  props.filter (fun kv => kv.1 != k)

/-- The userAgent rewrite inside anonymize: a truthy (present,
non-empty) user agent is truncated to the piece before the first
space; an absent or empty one is left as it is. -/
def uaAnonymize (o : Option Str) : Option Str :=
  match o with
  | some s => if s = [] then some s else some (firstTok ' ' s)
  | none => none

/-- TrackingEvent.anonymize: clears the user id, deletes the property
keys email, name and phone, and truncates a present (truthy) userAgent
to the piece before the first space character. -/
def anonymize (e : TrackingEvent) : TrackingEvent :=
  ⟨e.id, none, e.sessionId, e.type, e.name,
    delKey phoneK (delKey nameK (delKey emailK e.properties)),
    { e.context with userAgent := uaAnonymize e.context.userAgent },
    e.timestamp, e.serverTimestamp⟩

end TrackingEvent

/-- A queued event: a tracking event plus a client-side retry counter
(QueuedEvent in the SDK). -/
structure QueuedEvent where
  ev : TrackingEvent
  retries : Nat
deriving DecidableEq, Repr

/-- The SDK configuration after the constructor has applied its
defaults (batchSize 10, flushInterval 5000, maxRetries 3,
timeout 10000). -/
structure SDKConfig where
  batchSize : Nat
  flushInterval : Nat
  maxRetries : Nat
  timeout : Nat
  debugFlag : Bool
deriving DecidableEq, Repr

/-- The constructor defaults of DataSnackSDK. -/
def defaultSDKConfig : SDKConfig :=
  { batchSize := 10, flushInterval := 5000, maxRetries := 3, timeout := 10000,
    debugFlag := false }

/-- The flush code reads this.config.maxRetries or 3, so a zero (falsy)
configured value falls back to 3. -/
def effMaxRetries (cfg : SDKConfig) : Nat :=
  if cfg.maxRetries = 0 then 3 else cfg.maxRetries

/-- The mutable state of a DataSnackSDK instance: the capture queue,
the current session, the known user if any, the consent state and the
online flag. -/
structure SDKState where
  config : SDKConfig
  queue : List QueuedEvent
  sessionId : Str
  userId : Option Str
  consent : Consent
  isOnline : Bool
deriving DecidableEq, Repr

/-- A partial consent update, as passed to DataSnackSDK.setConsent
(Partial of ConsentState: absent categories are left unchanged). -/
structure ConsentPatch where
  necessary : Option Bool
  analytics : Option Bool
  marketing : Option Bool
  personalization : Option Bool
deriving DecidableEq, Repr

/-- The patch that mentions no category. -/
def emptyPatch : ConsentPatch :=
  { necessary := none, analytics := none, marketing := none, personalization := none }

/-- DataSnackSDK.setConsent on the consent field: the object spread
merges the patch over the current state unconditionally.  (The method
also emits a consent_change event through track; only the consent
field is relevant to the gating invariants.) -/
def sdkSetConsent (p : ConsentPatch) (c : Consent) : Consent :=
  { necessary := p.necessary.getD c.necessary
    analytics := p.analytics.getD c.analytics
    marketing := p.marketing.getD c.marketing
    personalization := p.personalization.getD c.personalization }

/-- The four consent categories. -/
inductive ConsentCategory where
  | necessary
  | analytics
  | marketing
  | personalization
deriving DecidableEq, Repr

/-- Setting one named category in a patch. -/
def patchSet (p : ConsentPatch) (cat : ConsentCategory) (b : Bool) : ConsentPatch :=
  match cat with
  | .necessary => { p with necessary := some b }
  | .analytics => { p with analytics := some b }
  | .marketing => { p with marketing := some b }
  | .personalization => { p with personalization := some b }

/-- The update object built by the grantConsent callback of the
useConsent hook: every listed category set to true. -/
def grantPatch (cats : List ConsentCategory) : ConsentPatch :=
  cats.foldl (fun p c => patchSet p c true) emptyPatch

/-- The update object built by the revokeConsent callback of the
useConsent hook: every listed category other than necessary set to
false (necessary is skipped, a no-op rather than an error). -/
def revokePatch (cats : List ConsentCategory) : ConsentPatch :=
  cats.foldl (fun p c => if c = ConsentCategory.necessary then p else patchSet p c false) emptyPatch

/-- A consent mutation available to SDK callers: grant or revoke a list
of categories (both are implemented through setConsent), or a raw
setConsent with an arbitrary partial state. -/
inductive ConsentMutation where
  | grant (cats : List ConsentCategory)
  | revoke (cats : List ConsentCategory)
deriving DecidableEq, Repr

/-- Applying one grant or revoke mutation to a consent state. -/
def applyConsentMutation (c : Consent) (m : ConsentMutation) : Consent :=
  match m with
  | .grant cats => sdkSetConsent (grantPatch cats) c
  | .revoke cats => sdkSetConsent (revokePatch cats) c

/-- The browser runtime getDefaultContext reads: absent fields when
there is no window, otherwise the eight ambient context values. -/
structure ClientEnv where
  hasWindow : Bool
  url : Str
  referrer : Str
  userAgent : Str
  screenResolution : Str
  viewport : Str
  timezone : Str
  language : Str
  platform : Str
deriving DecidableEq, Repr

/-- DataSnackSDK.getDefaultContext. -/
def getDefaultContext (env : ClientEnv) : EventContext :=
  if env.hasWindow = false then emptyContext
  else
    { emptyContext with
        url := some env.url
        referrer := some env.referrer
        userAgent := some env.userAgent
        screenResolution := some env.screenResolution
        viewport := some env.viewport
        timezone := some env.timezone
        language := some env.language
        platform := some env.platform }

/-- The object spread of the caller-supplied partial context over the
default context. -/
def mergeContext (base over : EventContext) : EventContext :=
  { url := jsSpreadOpt base.url over.url
    referrer := jsSpreadOpt base.referrer over.referrer
    userAgent := jsSpreadOpt base.userAgent over.userAgent
    screenResolution := jsSpreadOpt base.screenResolution over.screenResolution
    viewport := jsSpreadOpt base.viewport over.viewport
    timezone := jsSpreadOpt base.timezone over.timezone
    language := jsSpreadOpt base.language over.language
    platform := jsSpreadOpt base.platform over.platform
    snackId := jsSpreadOpt base.snackId over.snackId
    snackVersion := jsSpreadOpt base.snackVersion over.snackVersion
    experimentId := jsSpreadOpt base.experimentId over.experimentId
    experimentVariant := jsSpreadOpt base.experimentVariant over.experimentVariant }

namespace SDK

/-- DataSnackSDK.track up to the enqueue: the consent gate, then event
construction, session binding and the enqueue with a fresh retry
counter.  The source also calls withUser when a user id is known, but
discards the event the call returns, so the queued event keeps a null
user id; the let binding below mirrors that discarded call.  The
batch-size flush this method may then trigger is modelled separately
by flushResult. -/
def track (st : SDKState) (env : ClientEnv) (amb : Ambient) (newId : Str) (now : Nat)
    (type : Str) (props : List (Str × Str)) (ctx : EventContext) : SDKState :=
  if canTrack type st.consent = false then st
  else
    let ev := (TrackingEvent.create type type props
      (mergeContext (getDefaultContext env) ctx) amb newId now).withSession st.sessionId
    let _discarded :=
      match st.userId with
      | some u => if u = [] then ev else ev.withUser u
      | none => ev
    { st with queue := st.queue ++ [⟨ev, 0⟩] }

/-- Whether the enqueue reached the configured batch size and so
triggers an immediate flush. -/
def reachesBatchSize (st : SDKState) : Bool :=
  decide (st.config.batchSize ≤ st.queue.length)

/-- One requeue step of the failure path of DataSnackSDK.flush: an
event that has retries left is incremented and unshifted onto the
front of the queue, an exhausted one is dropped. -/
def requeueStep (maxR : Nat) (q : List QueuedEvent) (e : QueuedEvent) : List QueuedEvent :=
  if e.retries < maxR then { e with retries := e.retries + 1 } :: q else q

/-- DataSnackSDK.flush, with the outcome of the single network send and
the events captured while the send was in flight as parameters: a
no-op on an empty queue, a no-op when offline and not forced;
otherwise the queue is swapped out (events captured during the send
land in the next batch), and on failure each event of the failed batch
with retries left is pushed back to the front. -/
def flushResult (st : SDKState) (force sendOk : Bool) (arrived : List QueuedEvent) : SDKState :=
  if st.queue = [] then st
  else if st.isOnline = false ∧ force = false then st
  else if sendOk then { st with queue := arrived }
  else { st with queue := st.queue.foldl (requeueStep (effMaxRetries st.config)) arrived }

end SDK

/-- The consent block of the User entity (a version, the category map,
and optional grant metadata). -/
structure UserConsentState where
  version : Nat
  categories : Consent
  grantedAt : Option Nat
  ipAddress : Option Str
deriving DecidableEq, Repr

/-- The profile block of the User entity. -/
structure UserProfile where
  totalXp : Nat
  level : Nat
  achievements : List Str
deriving DecidableEq, Repr

/-- The pseudonymous User entity of the core domain package. -/
structure User where
  id : Str
  fingerprint : Str
  consent : UserConsentState
  profile : UserProfile
  createdAt : Nat
  lastSeenAt : Nat
  deletionRequestedAt : Option Nat
deriving DecidableEq, Repr

/-- Setting one category of a consent record. -/
def setCat (cc : Consent) (cat : ConsentCategory) (b : Bool) : Consent :=
  match cat with
  | .necessary => { cc with necessary := b }
  | .analytics => { cc with analytics := b }
  | .marketing => { cc with marketing := b }
  | .personalization => { cc with personalization := b }

namespace User

/-- User.createAnonymous: a fresh user with only necessary consent;
the generated id and the clock are parameters. -/
def createAnonymous (fingerprint uid : Str) (now : Nat) : User :=
  { id := uid
    fingerprint := fingerprint
    consent :=
      { version := 1
        categories :=
          { necessary := true, analytics := false, marketing := false,
            personalization := false }
        grantedAt := none
        ipAddress := none }
    profile := { totalXp := 0, level := 1, achievements := [] }
    createdAt := now
    lastSeenAt := now
    deletionRequestedAt := none }

/-- User.grantConsent: every listed category set true, the grant
stamped. -/
def grantConsent (u : User) (cats : List ConsentCategory) (now : Nat) : User :=
  { u with
      consent :=
        { u.consent with
            categories := cats.foldl (fun cc c => setCat cc c true) u.consent.categories
            grantedAt := some now }
      lastSeenAt := now }

/-- User.revokeConsent: every listed category other than necessary set
false; necessary is skipped. -/
def revokeConsent (u : User) (cats : List ConsentCategory) (now : Nat) : User :=
  { u with
      consent :=
        { u.consent with
            categories :=
              cats.foldl
                (fun cc c => if c = ConsentCategory.necessary then cc else setCat cc c false)
                u.consent.categories }
      lastSeenAt := now }

end User

/-- A user-level consent mutation together with the clock value the
runtime would supply. -/
inductive UserConsentMutation where
  | grant (cats : List ConsentCategory) (now : Nat)
  | revoke (cats : List ConsentCategory) (now : Nat)
deriving DecidableEq, Repr

/-- Applying one user-level consent mutation. -/
def applyUserConsentMutation (u : User) (m : UserConsentMutation) : User :=
  match m with
  | .grant cats now => u.grantConsent cats now
  | .revoke cats now => u.revokeConsent cats now

/-- The consent state the server resolves for a user
(the ConsentState of the application-layer TrackingService). -/
structure ServerConsent where
  hasAnalytics : Bool
  hasMarketing : Bool
  hasPersonalization : Bool
deriving DecidableEq, Repr

/-- An effect the tracking service requests from the event store. -/
inductive StoreAction where
  | store (e : TrackingEvent)
  | publish (e : TrackingEvent)
deriving DecidableEq, Repr

/-- TrackingService.track: creates the event, resolves consent
server-side (the resolved state is a parameter, as is the enricher
collaborator), and dispatches: without analytics consent only
page_view and consent_change events are stored, anonymized; with
analytics consent the event is enriched, bound to a truthy user id,
stored and published. -/
def TrackingService.trackEvent (consent : ServerConsent)
    (enrich : TrackingEvent → TrackingEvent) (amb : Ambient) (newId : Str) (now : Nat)
    (type name : Str) (props : List (Str × Str)) (ctx : EventContext)
    (userId : Option Str) : List StoreAction :=
  let e := TrackingEvent.create type name props ctx amb newId now
  if consent.hasAnalytics = false then
    if type = pageViewT ∨ type = consentChangeT then [.store e.anonymize] else []
  else
    let enriched := enrich e
    let bound :=
      match userId with
      | some u => if u = [] then enriched else enriched.withUser u
      | none => enriched
    [.store bound, .publish bound]

/-- The ServerTracker configuration flags. -/
structure ServerTrackerConfig where
  enableGTMServer : Bool
  enableDatabase : Bool
  enableAnalytics : Bool
  debugFlag : Bool
deriving DecidableEq, Repr

/-- The outcome of one fetch to the forwarding sink: an HTTP response
with a status, or a network error. -/
inductive FetchOutcome where
  | response (status : Nat)
  | netError
deriving DecidableEq, Repr

/-- The response.ok predicate of fetch: status in the success range. -/
def responseOk (status : Nat) : Bool :=
  decide (200 ≤ status ∧ status < 300)

/-- The row ServerTracker.track inserts into the events table. -/
structure StoredEventRow where
  time : Nat
  userId : Option Str
  sessionId : Str
  eventType : Str
  eventName : Str
  serverTimestamp : Nat
  isAnonymous : Bool
deriving DecidableEq, Repr

/-- Building the stored row from the stamped event; is_anonymous is the
negation of a present user id. -/
def buildStoredRow (e : TrackingEvent) (now : Nat) : StoredEventRow :=
  { time := e.timestamp
    userId := e.userId
    sessionId := e.sessionId
    eventType := e.type
    eventName := e.name
    serverTimestamp := now
    isAnonymous := e.userId.isNone }

namespace ServerTracker

/-- The body of the try block of forwardToGTMServer: the fetch, where a
network error or a non-success status raises. -/
def gtmAttempt (resp : FetchOutcome) : Except Unit Unit :=
  match resp with
  | .netError => .error ()
  | .response s => if responseOk s then .ok () else .error ()

/-- ServerTracker.forwardToGTMServer: a silent no-op when no sink URL
is configured; otherwise the attempt runs inside a try-catch that logs
and swallows every failure, so the call always returns normally. -/
def forwardToGTMServer (gtmServerUrl : Option Str) (resp : FetchOutcome) : Except Unit Unit :=
  match gtmServerUrl with
  | none => .ok ()
  | some _ =>
    match gtmAttempt resp with
    | .error _ => .ok ()
    | .ok _ => .ok ()

/-- ServerTracker.track for one event: stamps the server time, inserts
the row when the database is enabled (the insert outcome is the
persist parameter), then forwards when forwarding is enabled.  The
catch block logs and rethrows, so a persistence error propagates; on
success the stored row, if any, is returned. -/
def trackOne (cfg : ServerTrackerConfig) (persist : Except Unit Unit)
    (gtmServerUrl : Option Str) (resp : FetchOutcome) (e : TrackingEvent)
    (now : Nat) : Except Unit (Option StoredEventRow) :=
  let serverEvent := e.withServerTimestamp now
  let row := if cfg.enableDatabase then some (buildStoredRow serverEvent now) else none
  match (if cfg.enableDatabase then persist else Except.ok ()) with
  | .error err => .error err
  | .ok _ =>
    match (if cfg.enableGTMServer then forwardToGTMServer gtmServerUrl resp else Except.ok ()) with
    | .error err => .error err
    | .ok _ => .ok row

/-- The anonymous context record built by ServerTracker
createAnonymousEvent from the request headers. -/
structure AnonymousContext where
  browserFamily : Option Str
  ipSubnet : Option Str
  country : Option Str
deriving DecidableEq, Repr

/-- The client-ip candidate: the first comma-piece of x-forwarded-for
when truthy, else x-real-ip when truthy, else the literal unknown. -/
def clientIpOf (forwarded realIp : Option Str) : Str :=
  jsOrStr (forwarded.map (fun f => firstTok ',' f)) (jsOrStr realIp unknownLow)

/-- The context construction of ServerTracker.createAnonymousEvent: of
a truthy user-agent header only the piece before the first space is
kept; the client-ip candidate is stored only when it is not the
unknown literal, contains a dot, and splits on dots into exactly four
pieces, in which case the first three pieces are stored with a zero
last piece; a truthy CDN country header other than unknown is kept.
(createAnonymousEvent then hands this record to TrackingEvent.create.) -/
def anonymousContext (userAgent forwarded realIp cfCountry vercelCountry : Option Str) :
    AnonymousContext :=
  let bf : Option Str :=
    match userAgent with
    | some ua => if ua = [] then none else some (firstTok ' ' ua)
    | none => none
  let ip := clientIpOf forwarded realIp
  let subnet : Option Str :=
    if ip ≠ unknownLow ∧ '.' ∈ ip then
      match splitChar '.' ip with
      | [p0, p1, p2, _p3] => some (p0 ++ ['.'] ++ p1 ++ ['.'] ++ p2 ++ ['.', '0'])
      | _ => none
    else none
  let ctry : Option Str :=
    match jsOrOpt cfCountry vercelCountry with
    | some c => if c = [] ∨ c = unknownLow then none else some c
    | none => none
  ⟨bf, subnet, ctry⟩

end ServerTracker

/-- A row of the users table, with the columns the anonymization
routine touches. -/
structure UserRow where
  id : Str
  fingerprintHash : Str
  consentIpAddress : Option Str
  anonymizedAt : Option Nat
deriving DecidableEq, Repr

/-- A row of the events table, with the columns the anonymization
routine touches. -/
structure EventRow where
  userId : Option Str
  ipAddress : Option Str
  userAgent : Option Str
  isAnonymous : Bool
deriving DecidableEq, Repr

/-- A row of the snack_sessions table; the two data columns are JSON
objects modelled as association lists. -/
structure SessionRow where
  userId : Option Str
  rawData : List (Str × Str)
  processedData : List (Str × Str)
deriving DecidableEq, Repr

/-- The relational store the GDPR routine rewrites. -/
structure Database where
  users : List UserRow
  events : List EventRow
  sessions : List SessionRow
deriving DecidableEq, Repr

/-- The SQL function anonymize_user_data: rewrites the matching user
row (fingerprint hash to the anonymized- placeholder derived from the
id, consent ip cleared, anonymized_at stamped with the current time),
rewrites every event of that user (user id and ip cleared, user agent
truncated at the first space as SPLIT_PART does, marked anonymous) and
strips the personal_info key from the session data of that user.  The
GDPRTracker.anonymizeUserData method invokes exactly this function. -/
def anonymizeUserData (uuid : Str) (now : Nat) (db : Database) : Database :=
  { users :=
      db.users.map fun u =>
        if u.id = uuid then
          { u with
              fingerprintHash := anonymizedMark ++ uuid
              consentIpAddress := none
              anonymizedAt := some now }
        else u
    events :=
      db.events.map fun ev =>
        if ev.userId = some uuid then
          { ev with
              userId := none
              ipAddress := none
              userAgent := ev.userAgent.map (fun s => firstTok ' ' s)
              isAnonymous := true }
        else ev
    sessions :=
      db.sessions.map fun s =>
        if s.userId = some uuid then
          { s with
              rawData := TrackingEvent.delKey personalInfoK s.rawData
              processedData := TrackingEvent.delKey personalInfoK s.processedData }
        else s }

/-- Modelled from the spec: the first whitespace-delimited token of a
string, the reading the specification uses for the user-agent
truncation (the code itself splits on the space character only). -/
def specFirstWhitespaceTok (s : Str) : Str :=
  s.takeWhile (fun c => !c.isWhitespace)

/-- Modelled from the spec: whether a string is a dotted IPv4 address,
the reading the specification uses for the ip anonymization (four
dot-separated decimal octets, each at most 255). -/
def specIsDottedIPv4 (s : Str) : Bool :=
  let ps := splitChar '.' s
  decide (ps.length = 4) &&
    ps.all (fun p =>
      (!p.isEmpty) && p.all Char.isDigit &&
        decide (p.foldl (fun n c => 10 * n + (c.toNat - 48)) 0 ≤ 255))

/-- A fixed ambient runtime with no browser facilities (server side). -/
def sampleAmbient : Ambient :=
  { navigatorUserAgent := none, intlTimezone := none, navigatorLanguage := none }

/-- A fixed client environment without a window object. -/
def sampleEnv : ClientEnv :=
  { hasWindow := false, url := [], referrer := [], userAgent := [],
    screenResolution := [], viewport := [], timezone := [], language := [],
    platform := [] }

/-- A fixed concrete tracking event used in concrete evaluations. -/
def sampleEvent : TrackingEvent :=
  { id := [], userId := none, sessionId := [], type := clickT, name := clickT,
    properties := [], context := emptyContext, timestamp := 0, serverTimestamp := none }

/-- An SDK state with a known user, a session, and analytics consent. -/
def sdkStateForTrack : SDKState :=
  { config := defaultSDKConfig, queue := [], sessionId := ['s'],
    userId := some ['u'],
    consent :=
      { necessary := true, analytics := true, marketing := false,
        personalization := false },
    isOnline := true }

/-- An SDK state whose queue holds one fresh event and one event that
has exhausted its retries. -/
def sdkStateForFlush : SDKState :=
  { config := defaultSDKConfig, queue := [⟨sampleEvent, 0⟩, ⟨sampleEvent, 3⟩],
    sessionId := [], userId := none, consent := initialConsent, isOnline := true }

/-- A concrete event whose session id is already the one-letter s. -/
def eventS : TrackingEvent :=
  { sampleEvent with sessionId := ['s'] }

/-- A concrete event whose user agent has a tab before its first
space. -/
def eventTabUA : TrackingEvent :=
  { sampleEvent with
      context := { emptyContext with userAgent := some ['A', '\t', 'B', ' ', 'C'] } }

/-- A user-agent header value with a tab before the first space. -/
def tabUA : Str := ['A', '\t', 'B', ' ', 'C']

/-- A four-piece dotted header value that is not an IPv4 address. -/
def alphaDotted : Str := ['a', '.', 'b', '.', 'c', '.', 'd']

/-- A server-resolved consent state with analytics only. -/
def consentAnalyticsOnly : ServerConsent :=
  { hasAnalytics := true, hasMarketing := false, hasPersonalization := false }

/-- Whether an Except result is a success. -/
def isOkE {ε α : Type} : Except ε α → Bool
  | .ok _ => true
  | .error _ => false

theorem splitChar_ne_nil (c : Char) (l : Str) : splitChar c l ≠ [] := by
  cases l with
  | nil => simp [splitChar]
  | cons x xs =>
    simp only [splitChar]
    cases h : splitChar c xs with
    | nil => simp
    | cons y ys => by_cases hx : x = c <;> simp [hx]

theorem firstTok_eq_takeWhile (c : Char) (l : Str) :
    firstTok c l = l.takeWhile (fun a => a != c) := by
  induction l with
  | nil => rfl
  | cons x xs ih =>
    rw [firstTok] at ih ⊢
    simp only [splitChar]
    cases h : splitChar c xs with
    | nil => exact absurd h (splitChar_ne_nil c xs)
    | cons y ys =>
      rw [h] at ih
      simp only [List.headD_cons] at ih
      by_cases hx : x = c
      · simp [hx, List.takeWhile_cons]
      · simp [hx, List.takeWhile_cons, bne_iff_ne, ih]

theorem firstTok_idem (c : Char) (l : Str) :
    firstTok c (firstTok c l) = firstTok c l := by
  rw [firstTok_eq_takeWhile, firstTok_eq_takeWhile, List.takeWhile_idem]

theorem sep_not_mem_firstTok (c : Char) (l : Str) : c ∉ firstTok c l := by
  rw [firstTok_eq_takeWhile]
  intro hmem
  have := List.mem_takeWhile_imp hmem
  simp [bne_iff_ne] at this

theorem splitChar_pieces_no_sep (c : Char) (l : Str) : ∀ p ∈ splitChar c l, c ∉ p := by
  induction l with
  | nil =>
    intro p hp
    simp [splitChar] at hp
    simp [hp]
  | cons x xs ih =>
    intro p hp
    simp only [splitChar] at hp
    cases h : splitChar c xs with
    | nil => exact absurd h (splitChar_ne_nil c xs)
    | cons y ys =>
      rw [h] at hp
      by_cases hx : x = c
      · simp only [if_pos hx] at hp
        rcases List.mem_cons.mp hp with rfl | hp
        · simp
        · exact ih p (h ▸ hp)
      · simp only [if_neg hx] at hp
        rcases List.mem_cons.mp hp with rfl | hp
        · intro hc
          rcases List.mem_cons.mp hc with hcx | hcy
          · exact hx hcx.symm
          · exact ih y (h ▸ List.mem_cons_self y ys) hcy
        · exact ih p (h ▸ List.mem_cons_of_mem y hp)

theorem splitChar_append_sep (c : Char) (a rest : Str) (ha : c ∉ a) :
    splitChar c (a ++ c :: rest) = a :: splitChar c rest := by
  induction a with
  | nil =>
    simp only [List.nil_append, splitChar]
    cases h : splitChar c rest with
    | nil => exact absurd h (splitChar_ne_nil c rest)
    | cons y ys => simp
  | cons x xs ih =>
    have hx : x ≠ c := fun h => ha (List.mem_cons.mpr (Or.inl h.symm))
    have hxs : c ∉ xs := fun h => ha (List.mem_cons_of_mem x h)
    simp only [List.cons_append, splitChar, List.append_eq]
    rw [ih hxs]
    simp [hx]

theorem filter_self_idem {α : Type} (p : α → Bool) (l : List α) :
    (l.filter p).filter p = l.filter p := by
  induction l with
  | nil => rfl
  | cons x xs ih =>
    by_cases h : p x
    · simp [List.filter_cons, h, ih]
    · simp [List.filter_cons, h, ih]

theorem filter_swap {α : Type} (p q : α → Bool) (l : List α) :
    (l.filter q).filter p = (l.filter p).filter q := by
  induction l with
  | nil => rfl
  | cons x xs ih =>
    by_cases hp : p x <;> by_cases hq : q x <;> simp [List.filter_cons, hp, hq, ih]

theorem delKey_idem (k : Str) (l : List (Str × Str)) :
    TrackingEvent.delKey k (TrackingEvent.delKey k l) = TrackingEvent.delKey k l :=
  filter_self_idem _ _

theorem delKey_comm (k k' : Str) (l : List (Str × Str)) :
    TrackingEvent.delKey k (TrackingEvent.delKey k' l)
      = TrackingEvent.delKey k' (TrackingEvent.delKey k l) :=
  filter_swap _ _ _

theorem map_eq_of_forall {α β : Type} (f g : α → β) (l : List α) (h : ∀ a, f a = g a) :
    l.map f = l.map g := by
  induction l with
  | nil => rfl
  | cons x xs ih => simp [h, ih]

/-- Claim C1: for every event type and consent state, canTrack returns
true exactly when the type is always-allowed (page_view or
consent_change), or falls in the analytics group with analytics
granted, or is share with marketing granted, or falls in the
personalization group with personalization granted, or is any other
type with analytics granted. -/
theorem can_track_matches_category_table (t : Str) (c : Consent) :
    canTrack t c = true ↔
      ((t = pageViewT ∨ t = consentChangeT)
        ∨ ((t = snackStartT ∨ t = snackCompleteT ∨ t = clickT ∨ t = scrollT) ∧ c.analytics = true)
        ∨ (t = shareT ∧ c.marketing = true)
        ∨ ((t = clickDnaT ∨ t = scrollBehaviorT ∨ t = privacyLeakT) ∧ c.personalization = true)
        ∨ (¬(t = pageViewT ∨ t = consentChangeT ∨ t = snackStartT ∨ t = snackCompleteT
              ∨ t = clickT ∨ t = scrollT ∨ t = shareT ∨ t = clickDnaT ∨ t = scrollBehaviorT
              ∨ t = privacyLeakT) ∧ c.analytics = true)) := by
  have hN : t ∈ necessaryTypes ↔ t = pageViewT ∨ t = consentChangeT := by
    simp [necessaryTypes]
  have hA : t ∈ analyticsTypes ↔
      t = snackStartT ∨ t = snackCompleteT ∨ t = clickT ∨ t = scrollT := by
    simp [analyticsTypes]
  have hM : t ∈ marketingTypes ↔ t = shareT := by simp [marketingTypes]
  have hP : t ∈ personalizationTypes ↔
      t = clickDnaT ∨ t = scrollBehaviorT ∨ t = privacyLeakT := by
    simp [personalizationTypes]
  have hAM : ∀ x ∈ analyticsTypes, x ∉ marketingTypes := by decide
  have hAP : ∀ x ∈ analyticsTypes, x ∉ personalizationTypes := by decide
  have hMP : ∀ x ∈ marketingTypes, x ∉ personalizationTypes := by decide
  unfold canTrack
  split_ifs with h1 h2 h3 h4
  · constructor
    · intro _
      exact Or.inl (hN.mp h1)
    · intro _
      rfl
  · constructor
    · intro ha
      exact Or.inr (Or.inl ⟨hA.mp h2, ha⟩)
    · rintro (hn | ⟨_, ha⟩ | ⟨hs, _⟩ | ⟨hp, _⟩ | ⟨_, ha⟩)
      · exact absurd (hN.mpr hn) h1
      · exact ha
      · exact absurd (hM.mpr hs) (hAM t h2)
      · exact absurd (hP.mpr hp) (hAP t h2)
      · exact ha
  · constructor
    · intro hm
      exact Or.inr (Or.inr (Or.inl ⟨hM.mp h3, hm⟩))
    · rintro (hn | ⟨ha, _⟩ | ⟨_, hm⟩ | ⟨hp, _⟩ | ⟨hno, _⟩)
      · exact absurd (hN.mpr hn) h1
      · exact absurd (hA.mpr ha) h2
      · exact hm
      · exact absurd (hP.mpr hp) (hMP t h3)
      · exact absurd
          (Or.inr (Or.inr (Or.inr (Or.inr (Or.inr (Or.inr (Or.inl (hM.mp h3)))))))) hno
  · constructor
    · intro hp
      exact Or.inr (Or.inr (Or.inr (Or.inl ⟨hP.mp h4, hp⟩)))
    · rintro (hn | ⟨ha, _⟩ | ⟨hs, _⟩ | ⟨_, hp⟩ | ⟨hno, _⟩)
      · exact absurd (hN.mpr hn) h1
      · exact absurd (hA.mpr ha) h2
      · exact absurd (hM.mpr hs) h3
      · exact hp
      · rcases hP.mp h4 with h | h | h
        · exact absurd
            (Or.inr (Or.inr (Or.inr (Or.inr (Or.inr (Or.inr (Or.inr (Or.inl h)))))))) hno
        · exact absurd
            (Or.inr (Or.inr (Or.inr (Or.inr (Or.inr (Or.inr (Or.inr (Or.inr (Or.inl h)))))))))
            hno
        · exact absurd
            (Or.inr (Or.inr (Or.inr (Or.inr (Or.inr (Or.inr (Or.inr (Or.inr (Or.inr h)))))))))
            hno
  · constructor
    · intro ha
      refine Or.inr (Or.inr (Or.inr (Or.inr ⟨?_, ha⟩)))
      rintro (h | h | h | h | h | h | h | h | h | h)
      · exact h1 (hN.mpr (Or.inl h))
      · exact h1 (hN.mpr (Or.inr h))
      · exact h2 (hA.mpr (Or.inl h))
      · exact h2 (hA.mpr (Or.inr (Or.inl h)))
      · exact h2 (hA.mpr (Or.inr (Or.inr (Or.inl h))))
      · exact h2 (hA.mpr (Or.inr (Or.inr (Or.inr h))))
      · exact h3 (hM.mpr h)
      · exact h4 (hP.mpr (Or.inl h))
      · exact h4 (hP.mpr (Or.inr (Or.inl h)))
      · exact h4 (hP.mpr (Or.inr (Or.inr h)))
    · rintro (hn | ⟨ha, _⟩ | ⟨hs, _⟩ | ⟨hp, _⟩ | ⟨_, ha⟩)
      · exact absurd (hN.mpr hn) h1
      · exact absurd (hA.mpr ha) h2
      · exact absurd (hM.mpr hs) h3
      · exact absurd (hP.mpr hp) h4
      · exact ha

/-- Claim C2: evaluation of track at a state with a known user id and
analytics consent.  A denied event type (share, whose marketing
category is off) leaves the state unchanged without an error, and an
allowed click event is queued once at the back with retries zero and
the current session id — but with a null user id, although the SDK
knows the user: the source calls withUser on the immutable event and
discards the event that call returns, so the binding the claim (and
the specification) describes never reaches the queue. -/
theorem track_drops_user_binding :
    (SDK.track sdkStateForTrack sampleEnv sampleAmbient ['i'] 5 clickT []
        emptyContext).queue.map (fun q => (q.ev.userId, q.ev.sessionId, q.retries))
      = [(none, ['s'], 0)]
    ∧ sdkStateForTrack.userId = some ['u']
    ∧ canTrack clickT sdkStateForTrack.consent = true
    ∧ canTrack shareT sdkStateForTrack.consent = false
    ∧ SDK.track sdkStateForTrack sampleEnv sampleAmbient ['i'] 5 shareT []
        emptyContext = sdkStateForTrack := by decide

/-- The failure path of flush, written as a fold, equals the reversed
incremented survivors of the batch in front of the events that arrived
during the send. -/
theorem foldl_requeue_eq (maxR : Nat) (l acc : List QueuedEvent) :
    l.foldl (SDK.requeueStep maxR) acc
      = ((l.filter (fun e => decide (e.retries < maxR))).map
          (fun e => { e with retries := e.retries + 1 })).reverse ++ acc := by
  induction l generalizing acc with
  | nil => simp
  | cons x xs ih =>
    by_cases h : x.retries < maxR
    · simp [List.foldl_cons, SDK.requeueStep, h, List.filter_cons, ih, List.append_assoc]
    · simp [List.foldl_cons, SDK.requeueStep, h, List.filter_cons, ih]

/-- Claim C3: a flush whose send fails leaves the queue holding exactly
the events of the failed batch that still had retries left, each with
its counter incremented by one, in front of every event captured while
the flush was in flight; events whose counter had reached the maximum
are dropped. -/
theorem flush_failure_requeues_front (st : SDKState) (arrived : List QueuedEvent)
    (force : Bool) (hne : st.queue ≠ []) (hgo : st.isOnline = true ∨ force = true) :
    ∃ retained,
      (SDK.flushResult st force false arrived).queue = retained ++ arrived ∧
        retained.Perm
          ((st.queue.filter (fun e => decide (e.retries < effMaxRetries st.config))).map
            (fun e => { e with retries := e.retries + 1 })) := by
  have hoff : ¬(st.isOnline = false ∧ force = false) := by
    rcases hgo with h | h <;> simp [h]
  refine ⟨((st.queue.filter (fun e => decide (e.retries < effMaxRetries st.config))).map
      (fun e => { e with retries := e.retries + 1 })).reverse, ?_, List.reverse_perm _⟩
  simp [SDK.flushResult, hne, hoff, foldl_requeue_eq]

/-- Witness for claim C3: the requeue shape at a concrete two-event
queue, one event fresh and one exhausted, with one event arriving
during the failed send. -/
theorem flush_failure_requeues_front_witness :
    ∃ retained,
      (SDK.flushResult sdkStateForFlush true false [⟨sampleEvent, 1⟩]).queue
          = retained ++ [⟨sampleEvent, 1⟩] ∧
        retained.Perm
          ((sdkStateForFlush.queue.filter
              (fun e => decide (e.retries < effMaxRetries sdkStateForFlush.config))).map
            (fun e => { e with retries := e.retries + 1 })) :=
  flush_failure_requeues_front sdkStateForFlush [⟨sampleEvent, 1⟩] true (by decide)
    (Or.inr rfl)

theorem grantPatch_necessary (cats : List ConsentCategory) :
    (grantPatch cats).necessary = none ∨ (grantPatch cats).necessary = some true := by
  have step : ∀ (cats : List ConsentCategory) (p : ConsentPatch),
      (p.necessary = none ∨ p.necessary = some true) →
        ((cats.foldl (fun p c => patchSet p c true) p).necessary = none ∨
          (cats.foldl (fun p c => patchSet p c true) p).necessary = some true) := by
    intro cats
    induction cats with
    | nil => intro p hp; exact hp
    | cons c cs ih =>
      intro p hp
      apply ih
      cases c <;> simp [patchSet] <;> exact hp
  exact step cats emptyPatch (Or.inl rfl)

theorem revokePatch_necessary (cats : List ConsentCategory) :
    (revokePatch cats).necessary = none := by
  have step : ∀ (cats : List ConsentCategory) (p : ConsentPatch),
      p.necessary = none →
        (cats.foldl
            (fun p c => if c = ConsentCategory.necessary then p else patchSet p c false)
            p).necessary = none := by
    intro cats
    induction cats with
    | nil => intro p hp; exact hp
    | cons c cs ih =>
      intro p hp
      apply ih
      cases c <;> simp [patchSet] <;> exact hp
  exact step cats emptyPatch rfl

theorem applyConsentMutation_necessary (c : Consent) (m : ConsentMutation)
    (hc : c.necessary = true) : (applyConsentMutation c m).necessary = true := by
  cases m with
  | grant cats =>
    rcases grantPatch_necessary cats with h | h <;>
      simp [applyConsentMutation, sdkSetConsent, h, hc]
  | revoke cats =>
    simp [applyConsentMutation, sdkSetConsent, revokePatch_necessary cats, hc]

theorem foldl_consent_necessary (ms : List ConsentMutation) :
    ∀ c : Consent, c.necessary = true →
      (ms.foldl applyConsentMutation c).necessary = true := by
  induction ms with
  | nil => intro c hc; exact hc
  | cons m ms ih =>
    intro c hc
    exact ih _ (applyConsentMutation_necessary c m hc)

theorem grant_fold_necessary (cats : List ConsentCategory) :
    ∀ cc : Consent, cc.necessary = true →
      (cats.foldl (fun cc c => setCat cc c true) cc).necessary = true := by
  induction cats with
  | nil => intro cc hc; exact hc
  | cons c cs ih =>
    intro cc hc
    apply ih
    cases c <;> simp [setCat] <;> exact hc

theorem revoke_fold_necessary (cats : List ConsentCategory) :
    ∀ cc : Consent,
      (cats.foldl
          (fun cc c => if c = ConsentCategory.necessary then cc else setCat cc c false)
          cc).necessary = cc.necessary := by
  induction cats with
  | nil => intro cc; rfl
  | cons c cs ih =>
    intro cc
    rw [List.foldl_cons, ih]
    cases c <;> simp [setCat]

theorem applyUserConsentMutation_necessary (u : User) (m : UserConsentMutation)
    (hu : u.consent.categories.necessary = true) :
    (applyUserConsentMutation u m).consent.categories.necessary = true := by
  cases m with
  | grant cats now =>
    exact grant_fold_necessary cats u.consent.categories hu
  | revoke cats now =>
    simpa [applyUserConsentMutation, User.revokeConsent, revoke_fold_necessary] using hu

/-- Claim C4 counterexample: setConsent merges its partial argument
unconditionally, so passing necessary false to it from the initial
state yields a consent state whose necessary category is false. -/
theorem set_consent_clears_necessary :
    (sdkSetConsent
        { necessary := some false, analytics := none, marketing := none,
          personalization := none }
        initialConsent).necessary = false := by decide

/-- Claim C4 (amended): along every sequence of grant and revoke
mutations, both at the SDK consent state (through the useConsent hook
callbacks, which build the setConsent update) and at the User entity
starting from createAnonymous, the necessary category stays true, and
revokeConsent leaves the necessary category unchanged (revoking it is
a no-op rather than an error).  A raw setConsent call, by contrast,
can clear necessary, as the counterexample shows. -/
theorem grant_revoke_preserve_necessary (ms : List ConsentMutation)
    (us : List UserConsentMutation) (fp uid : Str) (now0 : Nat)
    (u : User) (cats : List ConsentCategory) (now : Nat) :
    (ms.foldl applyConsentMutation initialConsent).necessary = true ∧
    (us.foldl applyUserConsentMutation
        (User.createAnonymous fp uid now0)).consent.categories.necessary = true ∧
    (u.revokeConsent cats now).consent.categories.necessary
        = u.consent.categories.necessary := by
  refine ⟨foldl_consent_necessary ms initialConsent rfl, ?_, ?_⟩
  · have base : (User.createAnonymous fp uid now0).consent.categories.necessary = true := rfl
    have step : ∀ (us : List UserConsentMutation) (u : User),
        u.consent.categories.necessary = true →
          (us.foldl applyUserConsentMutation u).consent.categories.necessary = true := by
      intro us
      induction us with
      | nil => intro u hu; exact hu
      | cons m ms ih =>
        intro u hu
        exact ih _ (applyUserConsentMutation_necessary u m hu)
    exact step us _ base
  · exact revoke_fold_necessary cats u.consent.categories

/-- Claim C5 counterexample: a share event under a server-resolved
consent that has analytics but not marketing.  The gating policy
denies share, and share is not in the necessary set, so the claim
requires the event to be dropped; the service instead stores and
publishes it in full, with the client-asserted user id bound. -/
theorem service_track_stores_share_without_marketing :
    canTrack shareT
        { necessary := true, analytics := true, marketing := false,
          personalization := false } = false ∧
    (TrackingService.trackEvent consentAnalyticsOnly id sampleAmbient ['i'] 0
        shareT shareT [] emptyContext (some ['u'])).map
        (fun a => match a with
          | StoreAction.store e => e.userId
          | StoreAction.publish e => e.userId)
      = [some ['u'], some ['u']] := by decide

/-- Claim C5 (amended): the server-side tracking service re-checks only
the analytics category of the server-resolved consent, not the full
gating table.  Without analytics consent it stores an anonymized
record exactly for the necessary types page_view and consent_change
and drops everything else, regardless of the client-asserted user id
(every record it stores then carries a null user id); with analytics
consent it stores and publishes the enriched, user-bound event with no
per-type gating. -/
theorem service_track_gates_on_analytics_only (consent : ServerConsent)
    (enrich : TrackingEvent → TrackingEvent) (amb : Ambient) (newId : Str) (now : Nat)
    (type name : Str) (props : List (Str × Str)) (ctx : EventContext)
    (userId : Option Str) :
    (consent.hasAnalytics = false →
      ((TrackingService.trackEvent consent enrich amb newId now type name props ctx userId
          = []) ↔ (type ≠ pageViewT ∧ type ≠ consentChangeT)) ∧
      (∀ a ∈ TrackingService.trackEvent consent enrich amb newId now type name props ctx
          userId, ∃ e0, a = StoreAction.store e0 ∧ e0.userId = none)) ∧
    (consent.hasAnalytics = true →
      ∃ bound, TrackingService.trackEvent consent enrich amb newId now type name props ctx
          userId = [StoreAction.store bound, StoreAction.publish bound]) := by
  constructor
  · intro hno
    constructor
    · by_cases hty : type = pageViewT ∨ type = consentChangeT
      · simp [TrackingService.trackEvent, hno, hty]
        tauto
      · simp [TrackingService.trackEvent, hno, hty]
        tauto
    · intro a ha
      by_cases hty : type = pageViewT ∨ type = consentChangeT
      · simp [TrackingService.trackEvent, hno, hty] at ha
        exact ⟨_, ha, rfl⟩
      · simp [TrackingService.trackEvent, hno, hty] at ha
  · intro hyes
    refine ⟨(match userId with
      | some u =>
        if u = [] then enrich (TrackingEvent.create type name props ctx amb newId now)
        else (enrich (TrackingEvent.create type name props ctx amb newId now)).withUser u
      | none => enrich (TrackingEvent.create type name props ctx amb newId now)), ?_⟩
    simp [TrackingService.trackEvent, hyes]

/-- Witness for claim C5 (amended): without analytics consent a click
event is dropped entirely. -/
theorem service_track_gates_on_analytics_only_witness :
    TrackingService.trackEvent
        { hasAnalytics := false, hasMarketing := false, hasPersonalization := false }
        id sampleAmbient ['i'] 0 clickT clickT [] emptyContext (some ['u']) = [] :=
  ((service_track_gates_on_analytics_only
      { hasAnalytics := false, hasMarketing := false, hasPersonalization := false }
      id sampleAmbient ['i'] 0 clickT clickT [] emptyContext (some ['u'])).1
    rfl).1.mpr (by decide)

theorem uaAnonymize_idem (o : Option Str) :
    TrackingEvent.uaAnonymize (TrackingEvent.uaAnonymize o)
      = TrackingEvent.uaAnonymize o := by
  cases o with
  | none => rfl
  | some s =>
    by_cases hs : s = []
    · simp [TrackingEvent.uaAnonymize, hs]
    · simp only [TrackingEvent.uaAnonymize, if_neg hs]
      by_cases ht : firstTok ' ' s = []
      · simp [ht]
      · simp [ht, firstTok_idem]

theorem threeDel_idem (l : List (Str × Str)) :
    TrackingEvent.delKey phoneK (TrackingEvent.delKey nameK (TrackingEvent.delKey emailK
        (TrackingEvent.delKey phoneK (TrackingEvent.delKey nameK
          (TrackingEvent.delKey emailK l)))))
      = TrackingEvent.delKey phoneK (TrackingEvent.delKey nameK
          (TrackingEvent.delKey emailK l)) := by
  rw [delKey_comm emailK phoneK, delKey_comm emailK nameK, delKey_idem emailK,
    delKey_comm nameK phoneK, delKey_idem phoneK, delKey_idem nameK]

/-- Claim C6 counterexample: a user agent whose first whitespace is a
tab.  Its first whitespace-delimited token is the single letter before
the tab, but anonymize splits on the space character only and keeps
the tab, so the stored value is not that token. -/
theorem anonymize_splits_on_space_not_whitespace :
    (TrackingEvent.anonymize eventTabUA).context.userAgent = some ['A', '\t', 'B'] ∧
    specFirstWhitespaceTok ['A', '\t', 'B', ' ', 'C'] = ['A'] ∧
    (['A', '\t', 'B'] : Str) ≠ ['A'] := by decide

/-- Claim C6 (amended): anonymize returns an event with a null user id
and with the property keys email, name and phone absent; a present
userAgent is truncated to its first space-delimited token (the prefix
before the first space character, which need not end at a tab or other
whitespace); anonymize is total and idempotent. -/
theorem anonymize_clears_and_idempotent (e : TrackingEvent) :
    (TrackingEvent.anonymize e).userId = none ∧
    ((TrackingEvent.anonymize e).properties.all
        (fun kv => (kv.1 != emailK) && (kv.1 != nameK) && (kv.1 != phoneK))) = true ∧
    (TrackingEvent.anonymize e).context.userAgent
        = e.context.userAgent.map (fun s => firstTok ' ' s) ∧
    TrackingEvent.anonymize (TrackingEvent.anonymize e) = TrackingEvent.anonymize e := by
  refine ⟨rfl, ?_, ?_, ?_⟩
  · rw [List.all_eq_true]
    intro kv hkv
    simp only [TrackingEvent.anonymize, TrackingEvent.delKey, List.mem_filter] at hkv
    obtain ⟨⟨⟨_, h1⟩, h2⟩, h3⟩ := hkv
    simp [h1, h2, h3]
  · simp only [TrackingEvent.anonymize, TrackingEvent.uaAnonymize]
    cases e.context.userAgent with
    | none => rfl
    | some s =>
      by_cases hs : s = []
      · simp [hs, firstTok, splitChar]
      · simp [hs]
  · cases e with
    | mk i u sid ty nm props ctx ts sts =>
      cases ctx
      simp [TrackingEvent.anonymize, TrackingEvent.mk.injEq, EventContext.mk.injEq,
        threeDel_idem, uaAnonymize_idem]

theorem forward_always_ok (gtmServerUrl : Option Str) (resp : FetchOutcome) :
    ServerTracker.forwardToGTMServer gtmServerUrl resp = Except.ok () := by
  cases gtmServerUrl with
  | none => rfl
  | some u =>
    cases h : ServerTracker.gtmAttempt resp <;>
      simp [ServerTracker.forwardToGTMServer, h]

/-- Claim C7: forwarding is a silent no-op when the sink is
unconfigured and swallows every HTTP or network failure, so it always
returns normally; one ingested event is processed successfully exactly
when persistence is disabled or succeeds, independent of the
forwarding outcome. -/
theorem server_track_success_independent_of_forwarding (cfg : ServerTrackerConfig)
    (persist : Except Unit Unit) (gtmServerUrl : Option Str) (resp : FetchOutcome)
    (e : TrackingEvent) (now : Nat) :
    ServerTracker.forwardToGTMServer gtmServerUrl resp = Except.ok () ∧
    (isOkE (ServerTracker.trackOne cfg persist gtmServerUrl resp e now) = true ↔
      (cfg.enableDatabase = false ∨ persist = Except.ok ())) := by
  refine ⟨forward_always_ok gtmServerUrl resp, ?_⟩
  cases hdb : cfg.enableDatabase <;> cases persist <;> cases hg : cfg.enableGTMServer <;>
    simp [ServerTracker.trackOne, hdb, hg, isOkE, forward_always_ok]

/-- Claim C8: the SQL anonymization routine derives the replacement
fingerprint hash deterministically from the user id, so a second run
(at any later clock) leaves every fingerprint hash unchanged; at a
fixed clock the routine is fully idempotent; and after a run the
matching user row carries the placeholder hash, a cleared consent ip
and the anonymization stamp.  The routine is a total function of the
store, so a second call raises no error. -/
theorem anonymize_user_data_idempotent_hash (uuid : Str) (now later : Nat)
    (db : Database) :
    ((anonymizeUserData uuid later (anonymizeUserData uuid now db)).users.map
        (fun u => u.fingerprintHash)
      = (anonymizeUserData uuid now db).users.map (fun u => u.fingerprintHash)) ∧
    anonymizeUserData uuid now (anonymizeUserData uuid now db)
      = anonymizeUserData uuid now db ∧
    ((anonymizeUserData uuid now db).users.all
        (fun u => (u.id != uuid) ||
          (decide (u.fingerprintHash = anonymizedMark ++ uuid) &&
            u.consentIpAddress.isNone && decide (u.anonymizedAt = some now)))) = true := by
  refine ⟨?_, ?_, ?_⟩
  · simp only [anonymizeUserData, List.map_map]
    apply map_eq_of_forall
    intro u
    by_cases hu : u.id = uuid <;> simp [Function.comp, hu]
  · simp only [anonymizeUserData, Database.mk.injEq, List.map_map]
    refine ⟨?_, ?_, ?_⟩
    · apply map_eq_of_forall
      intro u
      by_cases hu : u.id = uuid <;> simp [Function.comp, hu]
    · apply map_eq_of_forall
      intro ev
      by_cases he : ev.userId = some uuid <;> simp [Function.comp, he]
    · apply map_eq_of_forall
      intro s
      by_cases hs : s.userId = some uuid <;> simp [Function.comp, hs, delKey_idem]
  · simp only [anonymizeUserData]
    rw [List.all_eq_true]
    intro u hu
    rw [List.mem_map] at hu
    obtain ⟨u0, _, rfl⟩ := hu
    by_cases h0 : u0.id = uuid <;> simp [h0]

/-- Claim C9 counterexample: binding the session id an event already
carries returns an event equal to the original in every field, so no
field differs, against the claim that exactly one does. -/
theorem with_session_can_leave_event_unchanged :
    TrackingEvent.withSession eventS ['s'] = eventS ∧ eventS.sessionId = ['s'] := by
  decide

/-- Claim C9 (amended): withUser, withSession and withServerTimestamp
each return a new event whose designated field is set to the supplied
value while every other field equals the corresponding field of the
original (which, being a value, is itself unchanged); the designated
field only differs when the supplied value differs from the stored
one. -/
theorem with_transforms_change_only_target (e : TrackingEvent) (u s : Str) (now : Nat) :
    ((e.withUser u).userId = some u ∧ (e.withUser u).id = e.id ∧
      (e.withUser u).sessionId = e.sessionId ∧ (e.withUser u).type = e.type ∧
      (e.withUser u).name = e.name ∧ (e.withUser u).properties = e.properties ∧
      (e.withUser u).context = e.context ∧ (e.withUser u).timestamp = e.timestamp ∧
      (e.withUser u).serverTimestamp = e.serverTimestamp) ∧
    ((e.withSession s).sessionId = s ∧ (e.withSession s).id = e.id ∧
      (e.withSession s).userId = e.userId ∧ (e.withSession s).type = e.type ∧
      (e.withSession s).name = e.name ∧ (e.withSession s).properties = e.properties ∧
      (e.withSession s).context = e.context ∧ (e.withSession s).timestamp = e.timestamp ∧
      (e.withSession s).serverTimestamp = e.serverTimestamp) ∧
    ((e.withServerTimestamp now).serverTimestamp = some now ∧
      (e.withServerTimestamp now).id = e.id ∧
      (e.withServerTimestamp now).userId = e.userId ∧
      (e.withServerTimestamp now).sessionId = e.sessionId ∧
      (e.withServerTimestamp now).type = e.type ∧
      (e.withServerTimestamp now).name = e.name ∧
      (e.withServerTimestamp now).properties = e.properties ∧
      (e.withServerTimestamp now).context = e.context ∧
      (e.withServerTimestamp now).timestamp = e.timestamp) :=
  ⟨⟨rfl, rfl, rfl, rfl, rfl, rfl, rfl, rfl, rfl⟩,
    ⟨rfl, rfl, rfl, rfl, rfl, rfl, rfl, rfl, rfl⟩,
    ⟨rfl, rfl, rfl, rfl, rfl, rfl, rfl, rfl, rfl⟩⟩

/-- Claim C10 counterexample: a request whose x-real-ip header is a
four-piece dotted value that is not an IPv4 address still gets an
ip-derived field stored, and a user agent whose first whitespace is a
tab keeps the tab, so the stored value is not the first
whitespace-delimited token. -/
theorem anonymous_context_accepts_non_ipv4 :
    (ServerTracker.anonymousContext (some tabUA) none (some alphaDotted) none
        none).ipSubnet = some ['a', '.', 'b', '.', 'c', '.', '0'] ∧
    specIsDottedIPv4 alphaDotted = false ∧
    (ServerTracker.anonymousContext (some tabUA) none (some alphaDotted) none
        none).browserFamily = some ['A', '\t', 'B'] ∧
    specFirstWhitespaceTok tabUA = ['A'] ∧
    (['A', '\t', 'B'] : Str) ≠ ['A'] := by decide

/-- Claim C10 (amended): a stored browser-family value is always the
prefix of the user-agent header before its first space character (so
it never contains a space), and a stored ip field exists only when the
selected client-ip value splits on dots into exactly four pieces, in
which case it consists of the first three pieces with a zero last
piece, so the value of the final piece of the header is never
stored. -/
theorem anonymous_context_truncation (ua fwd rip cf vc : Option Str) :
    (∀ bf, (ServerTracker.anonymousContext ua fwd rip cf vc).browserFamily = some bf →
      (∃ s, ua = some s ∧ bf = s.takeWhile (fun a => a != ' ')) ∧ ' ' ∉ bf) ∧
    (∀ sub, (ServerTracker.anonymousContext ua fwd rip cf vc).ipSubnet = some sub →
      (splitChar '.' (ServerTracker.clientIpOf fwd rip)).length = 4 ∧
      splitChar '.' sub
          = (splitChar '.' (ServerTracker.clientIpOf fwd rip)).take 3 ++ [['0']]) := by
  constructor
  · intro bf hbf
    cases ua with
    | none => simp [ServerTracker.anonymousContext] at hbf
    | some s =>
      by_cases hs : s = []
      · simp [ServerTracker.anonymousContext, hs] at hbf
      · simp [ServerTracker.anonymousContext, hs] at hbf
        refine ⟨⟨s, rfl, ?_⟩, ?_⟩
        · rw [← hbf, firstTok_eq_takeWhile]
        · rw [← hbf]
          exact sep_not_mem_firstTok ' ' s
  · intro sub hsub
    by_cases hcond :
        ServerTracker.clientIpOf fwd rip ≠ unknownLow ∧
          '.' ∈ ServerTracker.clientIpOf fwd rip
    · simp only [ServerTracker.anonymousContext, if_pos hcond] at hsub
      rcases hsp : splitChar '.' (ServerTracker.clientIpOf fwd rip) with
        _ | ⟨p0, _ | ⟨p1, _ | ⟨p2, _ | ⟨p3, _ | ⟨p4, ps⟩⟩⟩⟩⟩
      · rw [hsp] at hsub; simp at hsub
      · rw [hsp] at hsub; simp at hsub
      · rw [hsp] at hsub; simp at hsub
      · rw [hsp] at hsub; simp at hsub
      · rw [hsp] at hsub
        simp only [Option.some.injEq] at hsub
        have h0 : ('.' : Char) ∉ p0 :=
          splitChar_pieces_no_sep '.' _ p0 (by rw [hsp]; exact List.mem_cons_self _ _)
        have h1 : ('.' : Char) ∉ p1 :=
          splitChar_pieces_no_sep '.' _ p1
            (by rw [hsp]; exact List.mem_cons_of_mem _ (List.mem_cons_self _ _))
        have h2 : ('.' : Char) ∉ p2 :=
          splitChar_pieces_no_sep '.' _ p2
            (by
              rw [hsp]
              exact List.mem_cons_of_mem _
                (List.mem_cons_of_mem _ (List.mem_cons_self _ _)))
        constructor
        · rfl
        · rw [← hsub]
          simp only [List.cons_append, List.nil_append, List.append_assoc]
          rw [splitChar_append_sep '.' p0 _ h0]
          rw [splitChar_append_sep '.' p1 _ h1, splitChar_append_sep '.' p2 _ h2]
          simp [splitChar]
      · rw [hsp] at hsub; simp at hsub
    · simp [ServerTracker.anonymousContext, hcond] at hsub

/-- Witness for claim C10 (amended): the stored shape at a concrete
IPv4 header. -/
theorem anonymous_context_truncation_witness :
    (splitChar '.'
        (ServerTracker.clientIpOf none (some ['1', '.', '2', '.', '3', '.', '4']))).length
      = 4 ∧
    splitChar '.' (['1', '.', '2', '.', '3', '.', '0'] : Str)
      = (splitChar '.'
          (ServerTracker.clientIpOf none
            (some ['1', '.', '2', '.', '3', '.', '4']))).take 3 ++ [['0']] :=
  (anonymous_context_truncation (some ['M', 'o', 'z']) none
      (some ['1', '.', '2', '.', '3', '.', '4']) none none).2
    ['1', '.', '2', '.', '3', '.', '0'] (by decide)

end DataSnack
